import Mathlib

/-!
Shallow embedding of `ORBIT/phases/design/semisub_pontoon_design.py`
(class `CustomSemiSubmersibleDesign`, a floating-substructure design phase):
configuration validation, geometric upscaling, volume and mass formulas,
cost derivation, and the run/not-run guard on `design_result`.

Python floats are modelled as real numbers; dictionary keys that may be
absent are modelled as `Option` fields; exceptions raised by the code are
modelled with `Except`.
-/

noncomputable section

namespace CustomSemiSubmersibleDesign

/-- The `semisubmersible_design` sub-dictionary of a raw configuration,
before validation: every key may be absent (`none`). -/
structure RawDesign where
  column_diameter : Option ℝ
  wall_thickness : Option ℝ
  column_height : Option ℝ
  pontoon_length : Option ℝ
  pontoon_width : Option ℝ
  pontoon_height : Option ℝ
  strut_diameter : Option ℝ
  steel_density : Option ℝ
  ballast_mass : Option ℝ
  tower_interface_mass : Option ℝ
  steel_cost_rate : Option ℝ
  ballast_cost_rate : Option ℝ
  towing_speed : Option ℝ

/-- The `turbine` sub-dictionary of a raw configuration.  `expected_config`
requires `turbine_rating`; `rotor_diameter` is read by `__init__` without
being listed there. -/
structure RawTurbine where
  turbine_rating : Option ℝ
  rotor_diameter : Option ℝ

/-- A raw configuration dictionary: `site.depth`, `plant.num_turbines`,
the `turbine` sub-dictionary, and the `semisubmersible_design`
sub-dictionary (possibly absent as a whole). -/
structure Config where
  depth : Option ℝ
  num_turbines : Option ℕ
  turbine : RawTurbine
  semisubmersible_design : Option RawDesign

/-- The `semisubmersible_design` entry of a configuration that passed
validation: the seven dimensions required by `expected_config` are
present as plain reals, the optional entries are passed through. -/
structure ValidatedDesign where
  column_diameter : ℝ
  wall_thickness : ℝ
  column_height : ℝ
  pontoon_length : ℝ
  pontoon_width : ℝ
  pontoon_height : ℝ
  strut_diameter : ℝ
  steel_density : Option ℝ
  ballast_mass : Option ℝ
  tower_interface_mass : Option ℝ
  steel_cost_rate : Option ℝ
  ballast_cost_rate : Option ℝ
  towing_speed : Option ℝ

/-- A configuration that passed validation against `expected_config`:
every required key is present. -/
structure ValidConfig where
  depth : ℝ
  num_turbines : ℕ
  turbine_rating : ℝ
  design : ValidatedDesign

/-- Modelled from the spec: `DesignPhase.validate_config` (the base class
file `design_phase.py` is not among the sources).  The spec says a design
phase "receives a validated configuration"; validation checks that every
key required by `expected_config` (`site.depth`, `plant.num_turbines`,
`turbine.turbine_rating` and the seven required `semisubmersible_design`
dimensions) is present, and leaves the optional entries as given. -/
def validate_config (c : Config) : Option ValidConfig :=
  match c.depth, c.num_turbines, c.turbine.turbine_rating,
      c.semisubmersible_design with
  | some dep, some num, some rating, some d =>
    match d.column_diameter, d.wall_thickness, d.column_height,
        d.pontoon_length, d.pontoon_width, d.pontoon_height,
        d.strut_diameter with
    | some cd, some wt, some ch, some pl, some pw, some ph, some sdia =>
      some
        { depth := dep
          num_turbines := num
          turbine_rating := rating
          design :=
            { column_diameter := cd
              wall_thickness := wt
              column_height := ch
              pontoon_length := pl
              pontoon_width := pw
              pontoon_height := ph
              strut_diameter := sdia
              steel_density := d.steel_density
              ballast_mass := d.ballast_mass
              tower_interface_mass := d.tower_interface_mass
              steel_cost_rate := d.steel_cost_rate
              ballast_cost_rate := d.ballast_cost_rate
              towing_speed := d.towing_speed } }
    | _, _, _, _, _, _, _ => none
  | _, _, _, _ => none

/-- Errors the phase can raise: validation failure, the `KeyError` on
`config["turbine"]["rotor_diameter"]` in `__init__`, and the exception
raised by `design_result` before `run`. -/
inductive PhaseError where
  | missingInputs
  | keyErrorRotorDiameter
  | notRun

/-- The dictionary stored under the key "substructure" by `run`,
with exactly the three keys declared in `output_config`. -/
structure SubOut where
  mass : ℝ
  unit_cost : ℝ
  towing_speed : ℝ

/-- Instance state: `self.config` (validated), `self._design`
(the `semisubmersible_design` sub-dictionary), `self.geom_scale_factor`,
and `self._outputs` (empty = `none` until `run` stores the
"substructure" entry). -/
structure Inst where
  config : ValidConfig
  design : ValidatedDesign
  geom_scale_factor : ℝ
  outputs : Option SubOut

/-- The geometry scale factor computed in `__init__`:
`(new_turbine_radius / ref_turbine_radius) ** alpha` with
`new_turbine_radius = rotor_diameter / 2`, `ref_turbine_radius = 120.0`
and the power-law parameter `alpha = 0.72`. -/
def geom_scale_factor_of (rotor_diameter : ℝ) : ℝ :=
  ((rotor_diameter / 2) / 120) ^ (0.72 : ℝ)

/-- `CustomSemiSubmersibleDesign.__init__`: validate the configuration,
take the `semisubmersible_design` sub-dictionary as `_design`, read
`config["turbine"]["rotor_diameter"]` (a `KeyError` when the key is
absent) and compute the geometry scale factor; `_outputs` starts empty. -/
def init (c : Config) : Except PhaseError Inst :=
  match validate_config c with
  | none => .error .missingInputs
  | some vc =>
    match c.turbine.rotor_diameter with
    | none => .error .keyErrorRotorDiameter
    | some rd =>
      .ok
        { config := vc
          design := vc.design
          geom_scale_factor := geom_scale_factor_of rd
          outputs := none }

/-- Property `bouyant_column_volume`: volume of a single hollow
cylindrical buoyant column; diameter and height are scaled, the wall
thickness is not. -/
def bouyant_column_volume (i : Inst) : ℝ :=
  let d := i.config.design.column_diameter * i.geom_scale_factor
  let t := i.config.design.wall_thickness
  let h := i.config.design.column_height * i.geom_scale_factor
  (Real.pi / 4) * (h * d ^ 2 - (h - 2 * t) * (d - 2 * t) ^ 2)

/-- Property `center_column_volume`: volume of the hollow center column
under the turbine, with a fixed tower diameter of 10. -/
def center_column_volume (i : Inst) : ℝ :=
  let d : ℝ := 10
  let t := i.config.design.wall_thickness
  let h := i.config.design.column_height * i.geom_scale_factor
  let h2 := i.config.design.pontoon_height * i.geom_scale_factor
  (Real.pi / 4) * ((h - h2) * d ^ 2 - (h - t - h2) * (d - 2 * t) ^ 2)

/-- Property `pontoon_volume`: volume of a single hollow pontoon
connecting the central column to the outer columns. -/
def pontoon_volume (i : Inst) : ℝ :=
  let l := i.config.design.pontoon_length * i.geom_scale_factor
  let w := i.config.design.pontoon_width * i.geom_scale_factor
  let h := i.config.design.pontoon_height * i.geom_scale_factor
  let t := i.config.design.wall_thickness
  (h * w - (h - 2 * t) * (w - 2 * t)) * l

/-- Property `strut_volume`: volume of a single strut connecting the
central column to the outer columns. -/
def strut_volume (i : Inst) : ℝ :=
  let l := i.config.design.pontoon_length * i.geom_scale_factor
  let d := i.config.design.strut_diameter * i.geom_scale_factor
  (Real.pi / 4) * d ^ 2 * l

/-- Property `substructure_steel_mass`: total mass of structural steel;
the density default used by the code is 7980 (the commented-out value
next to it, and the one documented in `expected_config`, is 8050). -/
def substructure_steel_mass (i : Inst) : ℝ :=
  let dens := i.design.steel_density.getD 7980
  (dens / 1000) *
    (3 * bouyant_column_volume i + center_column_volume i +
      3 * pontoon_volume i + 3 * strut_volume i)

/-- Property `ballast_mass`: fixed ballast mass, default 2540. -/
def ballast_mass (i : Inst) : ℝ :=
  i.design.ballast_mass.getD 2540

/-- Property `tower_interface_mass`: tower interface mass, default 100. -/
def tower_interface_mass (i : Inst) : ℝ :=
  i.design.tower_interface_mass.getD 100

/-- Property `substructure_steel_cost`: steel cost rate (default 4500)
times the structural steel mass. -/
def substructure_steel_cost (i : Inst) : ℝ :=
  let steel_cr := i.design.steel_cost_rate.getD 4500
  steel_cr * substructure_steel_mass i

/-- Property `substructure_mass`: structural steel plus ballast plus
tower interface mass. -/
def substructure_mass (i : Inst) : ℝ :=
  substructure_steel_mass i + ballast_mass i + tower_interface_mass i

/-- Property `substructure_unit_cost`: steel cost plus ballast cost rate
(default 150) times the ballast mass. -/
def substructure_unit_cost (i : Inst) : ℝ :=
  let ballast_cr := i.design.ballast_cost_rate.getD 150
  substructure_steel_cost i + ballast_cr * ballast_mass i

/-- `run`: store the "substructure" output dictionary into `_outputs`. -/
def run (i : Inst) : Inst :=
  { i with
      outputs :=
        some
          { mass := substructure_mass i
            unit_cost := substructure_unit_cost i
            towing_speed := i.design.towing_speed.getD 6 } }

/-- Property `design_result`: raises when `_outputs` is still empty,
otherwise returns the stored outputs. -/
def design_result (i : Inst) : Except PhaseError SubOut :=
  match i.outputs with
  | none => .error .notRun
  | some o => .ok o

/-- Property `total_cost`: `plant.num_turbines` times the substructure
unit cost. -/
def total_cost (i : Inst) : ℝ :=
  (i.config.num_turbines : ℝ) * substructure_unit_cost i

/-- The dictionary returned by the `detailed_output` property. -/
structure DetailedOutput where
  substructure_steel_mass : ℝ
  substructure_steel_cost : ℝ
  substructure_mass : ℝ
  substructure_cost : ℝ

/-- Property `detailed_output`. -/
def detailed_output (i : Inst) : DetailedOutput :=
  { substructure_steel_mass := substructure_steel_mass i
    substructure_steel_cost := substructure_steel_cost i
    substructure_mass := substructure_mass i
    substructure_cost := substructure_unit_cost i }

/-- Whether an `Except` value is an exception. -/
def isError {α : Type} : Except PhaseError α → Bool
  | .error _ => true
  | .ok _ => false

/-- The default steel density documented by the `expected_config` entry
for `steel_density`: "kg/m^3 (optional, default: 8050)". -/
def documented_steel_density_default : ℝ := 8050

/-- Constructing the phase from a raw configuration, calling `run`, and
reading `design_result`, `total_cost` and `detailed_output`. -/
def phase_results (c : Config) :
    Except PhaseError (Except PhaseError SubOut × ℝ × DetailedOutput) :=
  (init c).map fun i =>
    (design_result (run i), total_cost (run i), detailed_output (run i))

/-- A `semisubmersible_design` sub-dictionary holding every key required
by `expected_config` and none of the optional ones. -/
def designRawW : RawDesign :=
  { column_diameter := some 13
    wall_thickness := some 1
    column_height := some 35
    pontoon_length := some 52
    pontoon_width := some 13
    pontoon_height := some 7
    strut_diameter := some 1
    steel_density := none
    ballast_mass := none
    tower_interface_mass := none
    steel_cost_rate := none
    ballast_cost_rate := none
    towing_speed := none }

/-- A configuration holding every key required by `expected_config`
(and nothing more): in particular `turbine.rotor_diameter` is absent. -/
def configNoRotor : Config :=
  { depth := some 200
    num_turbines := some 50
    turbine := { turbine_rating := some 15, rotor_diameter := none }
    semisubmersible_design := some designRawW }

/-- The same configuration with `turbine.rotor_diameter` also present. -/
def configW : Config :=
  { depth := some 200
    num_turbines := some 50
    turbine := { turbine_rating := some 15, rotor_diameter := some 240 }
    semisubmersible_design := some designRawW }

/-- The validated design sub-dictionary of `configW`. -/
def vDesignW : ValidatedDesign :=
  { column_diameter := 13
    wall_thickness := 1
    column_height := 35
    pontoon_length := 52
    pontoon_width := 13
    pontoon_height := 7
    strut_diameter := 1
    steel_density := none
    ballast_mass := none
    tower_interface_mass := none
    steel_cost_rate := none
    ballast_cost_rate := none
    towing_speed := none }

/-- A freshly constructed instance (run not yet called). -/
def instW : Inst :=
  { config :=
      { depth := 200
        num_turbines := 50
        turbine_rating := 15
        design := vDesignW }
    design := vDesignW
    geom_scale_factor := 1
    outputs := none }

/-- Claim C1: the claim says a configuration containing every key that
`expected_config` requires is sufficient to construct the phase.  The code
violates this: `configNoRotor` contains every required key and passes
validation, yet `__init__` reads `config["turbine"]["rotor_diameter"]`,
a key `expected_config` does not list, and raises a `KeyError`. -/
theorem init_keyerror_on_required_keys_only :
    (validate_config configNoRotor).isSome = true ∧
    init configNoRotor = .error .keyErrorRotorDiameter :=
  ⟨rfl, rfl⟩

/-- Claim C2: every cost is a mass times a per-unit cost rate:
`substructure_steel_cost` is the steel cost rate (default 4500) times
`substructure_steel_mass`, and `substructure_unit_cost` is the steel
cost plus the ballast cost rate (default 150) times `ballast_mass`. -/
theorem cost_is_rate_times_mass (i : Inst) :
    substructure_steel_cost i =
      i.design.steel_cost_rate.getD 4500 * substructure_steel_mass i ∧
    substructure_unit_cost i =
      substructure_steel_cost i +
        i.design.ballast_cost_rate.getD 150 * ballast_mass i :=
  ⟨rfl, rfl⟩

/-- Claim C3: `substructure_steel_mass` is density/1000 times
(3 buoyant columns + center column + 3 pontoons + 3 struts), where each
volume is the closed-form formula over the configured dimensions with
diameters, heights, lengths and widths multiplied by the geometry scale
factor and the wall thickness left unscaled; in particular the buoyant
column volume is `(pi/4) * (h*d^2 - (h - 2t)*(d - 2t)^2)` for scaled `d`
and `h` and unscaled `t`. -/
theorem steel_mass_volume_formulas (i : Inst) :
    substructure_steel_mass i =
      i.design.steel_density.getD 7980 / 1000 *
        (3 * bouyant_column_volume i + center_column_volume i +
          3 * pontoon_volume i + 3 * strut_volume i) ∧
    bouyant_column_volume i =
      Real.pi / 4 *
        (i.config.design.column_height * i.geom_scale_factor *
            (i.config.design.column_diameter * i.geom_scale_factor) ^ 2 -
          (i.config.design.column_height * i.geom_scale_factor -
              2 * i.config.design.wall_thickness) *
            (i.config.design.column_diameter * i.geom_scale_factor -
                2 * i.config.design.wall_thickness) ^ 2) ∧
    pontoon_volume i =
      (i.config.design.pontoon_height * i.geom_scale_factor *
          (i.config.design.pontoon_width * i.geom_scale_factor) -
        (i.config.design.pontoon_height * i.geom_scale_factor -
            2 * i.config.design.wall_thickness) *
          (i.config.design.pontoon_width * i.geom_scale_factor -
            2 * i.config.design.wall_thickness)) *
        (i.config.design.pontoon_length * i.geom_scale_factor) ∧
    strut_volume i =
      Real.pi / 4 *
          (i.config.design.strut_diameter * i.geom_scale_factor) ^ 2 *
        (i.config.design.pontoon_length * i.geom_scale_factor) :=
  ⟨rfl, rfl, rfl, rfl⟩

/-- Claim C4: `total_cost` is `plant.num_turbines` times the
substructure unit cost. -/
theorem total_cost_linear_in_turbines (i : Inst) :
    total_cost i = (i.config.num_turbines : ℝ) * substructure_unit_cost i :=
  rfl

/-- Claim C5: after `run`, `design_result` holds exactly the
"substructure" dictionary with keys mass, unit_cost and towing_speed,
where mass is `substructure_mass`, unit_cost is
`substructure_unit_cost`, and towing_speed is the configured value or 6
when absent. -/
theorem run_design_result (i : Inst) :
    design_result (run i) =
      .ok
        { mass := substructure_mass i
          unit_cost := substructure_unit_cost i
          towing_speed := i.design.towing_speed.getD 6 } :=
  rfl

/-- Claim C6: on an instance whose `_outputs` starts empty,
`design_result` raises an exception exactly when `run` has been called
zero times. -/
theorem design_result_guard (i : Inst) (h : i.outputs = none) (n : ℕ) :
    isError (design_result (run^[n] i)) = true ↔ n = 0 := by
  cases n with
  | zero => simp [design_result, isError, h]
  | succ k =>
    rw [Function.iterate_succ_apply']
    simp [design_result, isError, run]

/-- Witness for C6 at a concrete fresh instance and one call of `run`. -/
theorem design_result_guard_witness :
    instW.outputs = none ∧
    (isError (design_result (run^[1] instW)) = true ↔ 1 = 0) :=
  ⟨rfl, design_result_guard instW rfl 1⟩

/-- Claim C7: the phase is deterministic in its inputs: equal raw
configurations give equal `design_result`, `total_cost` and
`detailed_output` values after construction and `run`. -/
theorem deterministic_results (c₁ c₂ : Config) (h : c₁ = c₂) :
    phase_results c₁ = phase_results c₂ := by
  rw [h]

/-- Witness for C7 at a concrete configuration. -/
theorem deterministic_results_witness :
    phase_results configW = phase_results configW :=
  deterministic_results configW configW rfl

/-- Claim C8: when `steel_density` is omitted, the steel mass is computed
with a default density of 7980, which differs from the 8050 that
`expected_config` documents as the default. -/
theorem steel_density_default_mismatch (i : Inst)
    (h : i.design.steel_density = none) :
    substructure_steel_mass i =
      7980 / 1000 *
        (3 * bouyant_column_volume i + center_column_volume i +
          3 * pontoon_volume i + 3 * strut_volume i) ∧
    (7980 : ℝ) ≠ documented_steel_density_default := by
  constructor
  · simp [substructure_steel_mass, h]
  · rw [documented_steel_density_default]
    norm_num

/-- Witness for C8 at a concrete instance with `steel_density` absent. -/
theorem steel_density_default_mismatch_witness :
    instW.design.steel_density = none ∧
    (substructure_steel_mass instW =
        7980 / 1000 *
          (3 * bouyant_column_volume instW + center_column_volume instW +
            3 * pontoon_volume instW + 3 * strut_volume instW) ∧
      (7980 : ℝ) ≠ documented_steel_density_default) :=
  ⟨rfl, steel_density_default_mismatch instW rfl⟩

/-- Claim C9: `run` modifies only `_outputs`: the validated
configuration, the design sub-dictionary, and the geometry scale factor
are unchanged (the computed properties are pure functions of the state
and touch no state at all). -/
theorem run_frame (i : Inst) :
    (run i).config = i.config ∧
    (run i).design = i.design ∧
    (run i).geom_scale_factor = i.geom_scale_factor :=
  ⟨rfl, rfl, rfl⟩

/-- Claim C10: the geometry scale factor is strictly increasing in the
rotor diameter on positive diameters, equals 1 at the reference rotor
diameter 240, and there every scaled dimension equals its configured
value. -/
theorem geom_scale_factor_props (r₁ r₂ x : ℝ) (h₁ : 0 < r₁)
    (h₂ : r₁ < r₂) :
    geom_scale_factor_of r₁ < geom_scale_factor_of r₂ ∧
    geom_scale_factor_of 240 = 1 ∧
    x * geom_scale_factor_of 240 = x := by
  have hone : geom_scale_factor_of 240 = 1 := by
    unfold geom_scale_factor_of
    norm_num [Real.one_rpow]
  refine ⟨?_, hone, by rw [hone, mul_one]⟩
  unfold geom_scale_factor_of
  apply Real.rpow_lt_rpow
  · positivity
  · linarith
  · norm_num

/-- Witness for C10 at rotor diameters 120 and 240 and dimension 13. -/
theorem geom_scale_factor_props_witness :
    (0 : ℝ) < 120 ∧ (120 : ℝ) < 240 ∧
    (geom_scale_factor_of 120 < geom_scale_factor_of 240 ∧
      geom_scale_factor_of 240 = 1 ∧
      (13 : ℝ) * geom_scale_factor_of 240 = 13) :=
  ⟨by norm_num, by norm_num,
    geom_scale_factor_props 120 240 13 (by norm_num) (by norm_num)⟩

end CustomSemiSubmersibleDesign
